import Mathlib

/-!
Verification of the core of the `torrent_client` repository: a shallow
embedding, in Lean 4, of the pure data transformations of the Python
sources (`utils/build_messages.py`, `utils/verify_messages.py`,
`utils/handlers.py`, `utils/json_data.py`, `utils/download.py`,
`utils/get_peers.py`), together with theorems settling the specification
claims about them.

Bytes are modelled as natural numbers (each `< 256` where it matters);
byte strings as `List Nat`.  Python `set` becomes `Finset Nat`,
`List[bool]` becomes `List Bool`.  Fallible code returns `Except`/`Option`.
-/

namespace TorrentClient

/-- Big-endian unsigned interpretation of a byte list
(`struct.unpack(">I", ...)` / `">Q"` on 4 resp. 8 bytes). -/
def beWord (bs : List Nat) : Nat :=
  bs.foldl (fun acc b => acc * 256 + b) 0

/-- Signed interpretation of a single byte (`struct.unpack(">b", ...)`). -/
def signedByte (b : Nat) : Int :=
  if b < 128 then (b : Int) else (b : Int) - 256

/-- `ParsedMessage` from `utils/details.py`: `size`, `id`, `payload`,
each possibly `None`. -/
structure ParsedMessage where
  size : Option Nat
  id : Option Int
  payload : Option (List Nat)
deriving DecidableEq, Repr

/-- `parse_message` from `utils/build_messages.py` (lines 194-207):
`size` is the big-endian u32 of `packet[0:4]` when at least 4 bytes are
present, `id` the signed byte `packet[4]` when at least 5 are present,
`payload` is `packet[5:]` when at least 6 are present; missing parts are
`None`. -/
def parse_message (packet : List Nat) : ParsedMessage where
  size := if packet.length < 4 then none else some (beWord (packet.take 4))
  id := if packet.length < 5 then none else some (signedByte (packet.getD 4 0))
  payload := if packet.length < 6 then none else some (packet.drop 5)

/-- `is_have` from `utils/verify_messages.py`: `msg.id == 4`. -/
def is_have (msg : ParsedMessage) : Bool :=
  decide (msg.id = some 4)

/-- `is_bitfeild` from `utils/verify_messages.py` (sic): `msg.id == 5`. -/
def is_bitfeild (msg : ParsedMessage) : Bool :=
  decide (msg.id = some 5)

/-- `is_choke` from `utils/verify_messages.py`: `msg.id == 0 and msg.size == 1`. -/
def is_choke (msg : ParsedMessage) : Bool :=
  decide (msg.id = some 0 ∧ msg.size = some 1)

/-- `is_unchoke` from `utils/verify_messages.py`: `msg.id == 1 and msg.size == 1`. -/
def is_unchoke (msg : ParsedMessage) : Bool :=
  decide (msg.id = some 1 ∧ msg.size = some 1)

/-- The 19 ASCII bytes of `b"BitTorrent protocol"`. -/
def protocol_string_bytes : List Nat :=
  [66, 105, 116, 84, 111, 114, 114, 101, 110, 116, 32,
   112, 114, 111, 116, 111, 99, 111, 108]

/-- `is_handshake` from `utils/verify_messages.py` (lines 4-41).
The packet must be exactly 68 bytes; `struct.unpack(">B19s8x20s20s")`
yields `pstrlen = packet[0]`, the protocol string `packet[1:20]`,
the info hash `packet[28:48]` (8 reserved bytes skipped), and the peer id
`packet[48:68]`; only the first three are compared. -/
def is_handshake (packet : List Nat) (info_hash : List Nat) : Bool :=
  if packet.length ≠ 68 then
    false
  else
    let len_resp := packet.getD 0 0
    let msg_resp := (packet.drop 1).take 19
    let info_hash_resp := (packet.drop 28).take 20
    if len_resp ≠ 19 ∨ msg_resp ≠ protocol_string_bytes ∨ info_hash_resp ≠ info_hash then
      false
    else
      true

/-- `have_handler` from `utils/handlers.py` (lines 13-30):
unpacks the payload as a big-endian u32 (`struct.unpack(">I", ...)`
requires exactly 4 bytes), indexes `verified_pieces` with it (an
out-of-range index raises `IndexError`), and returns `[index]` when the
piece is not yet verified, else `[]`.  Python exceptions are modelled as
`Except.error`. -/
def have_handler (parsed_message : ParsedMessage) (verified_pieces : List Bool) :
    Except Unit (List Nat) :=
  match parsed_message.payload with
  | none => .error ()
  | some p =>
    if p.length = 4 then
      let piece_index := beWord p
      if h : piece_index < verified_pieces.length then
        if verified_pieces.get ⟨piece_index, h⟩ then .ok [] else .ok [piece_index]
      else .error ()
    else .error ()

/-- Inner loop of `bitfield_handler` (`for bit in range(8)`), carried over
the list of remaining `bit` values.  `piece_index = byte_index * 8 + (7 - bit)`;
when `piece_index >= total_pieces` the Python `break` aborts the whole
inner loop, so the recursion returns `[]` there. -/
def bitfieldBitsLoop (byte byte_index total_pieces : Nat) (verified_pieces : List Bool) :
    List Nat → List Nat
  | [] => []
  | bit :: rest =>
    let piece_index := byte_index * 8 + (7 - bit)
    if total_pieces ≤ piece_index then
      []
    else
      let has_piece := (byte >>> bit) &&& 1
      if has_piece ≠ 0 ∧ verified_pieces.getD piece_index false = false then
        piece_index :: bitfieldBitsLoop byte byte_index total_pieces verified_pieces rest
      else
        bitfieldBitsLoop byte byte_index total_pieces verified_pieces rest

/-- Outer loop of `bitfield_handler` (`for byte_index, byte in enumerate(payload)`). -/
def bitfieldBytesLoop (total_pieces : Nat) (verified_pieces : List Bool) :
    List Nat → Nat → List Nat
  | [], _ => []
  | byte :: rest, byte_index =>
    bitfieldBitsLoop byte byte_index total_pieces verified_pieces
        [0, 1, 2, 3, 4, 5, 6, 7]
      ++ bitfieldBytesLoop total_pieces verified_pieces rest (byte_index + 1)

/-- `bitfield_handler` from `utils/handlers.py` (lines 32-56):
`total_pieces = len(verified_pieces)`; iterating over a `None` payload
raises `TypeError`, modelled as `Except.error`. -/
def bitfield_handler (parsed_message : ParsedMessage) (verified_pieces : List Bool) :
    Except Unit (List Nat) :=
  match parsed_message.payload with
  | none => .error ()
  | some payload =>
    .ok (bitfieldBytesLoop verified_pieces.length verified_pieces payload 0)

/-- Specification-side reading of a bitfield (spec §4.1 / property 7):
bit at position `i` is `(byte[i / 8] >> (7 - i % 8)) & 1`. -/
def spec_bitfield_bit (payload : List Nat) (i : Nat) : Nat :=
  (payload.getD (i / 8) 0 >>> (7 - i % 8)) &&& 1

/-- Specification-side `needed = peer_has \ verified`: all indices
`i < num_pieces` whose bitfield bit is 1 and which are not verified,
including indices of a final partial byte. -/
def spec_needed_pieces (payload : List Nat) (verified_pieces : List Bool) : List Nat :=
  (List.range verified_pieces.length).filter
    (fun i => spec_bitfield_bit payload i = 1 ∧ verified_pieces.getD i false = false)

/-- `verify_piece_hash` from `utils/handlers.py` (lines 58-70):
`hashlib.sha1(piece_data).digest() == piece_hash`.  SHA-1 itself is
library code (`hashlib`), not part of this repository, so the digest
function is a parameter. -/
def verify_piece_hash (sha1 : List Nat → List Nat)
    (piece_data : List Nat) (piece_hash : List Nat) : Bool :=
  decide (sha1 piece_data = piece_hash)

/-- `ResumeData` from `utils/json_data.py` (the `asyncio.Lock` field is a
concurrency primitive carrying no data and is omitted).  `claimed_pieces`
is the in-flight claim set, excluded from serialization. -/
structure ResumeData where
  info_hash : String
  piece_length : Nat
  total_pieces : Nat
  downloaded : Nat
  file_sizes : List Nat
  mtime : Nat
  verified_pieces : List Bool
  last_active : String
  claimed_pieces : Finset Nat
deriving DecidableEq

/-- `MAX_CLAIM_PER_PEER` from `utils/download.py` (line 24). -/
def MAX_CLAIM_PER_PEER : Nat := 30

/-- `BLOCK_SIZE` from `utils/download.py` (line 25): 2^14 = 16 KiB. -/
def BLOCK_SIZE : Nat := 2 ^ 14

/-- The claim loop of `download_from_peer` (`utils/download.py` lines
223-231): walk `pieces_available_from_peer`, stop once
`MAX_CLAIM_PER_PEER` pieces are claimed, and claim every index that is
neither verified nor already claimed.  Returns the updated ledger and the
batch claimed by this session (in claim order). -/
def claimLoop : List Nat → ResumeData → List Nat → ResumeData × List Nat
  | [], st, claimed => (st, claimed)
  | piece_index :: rest, st, claimed =>
    if MAX_CLAIM_PER_PEER ≤ claimed.length then
      (st, claimed)
    else if st.verified_pieces.getD piece_index false = false ∧
        piece_index ∉ st.claimed_pieces then
      claimLoop rest
        { st with claimed_pieces := insert piece_index st.claimed_pieces }
        (claimed ++ [piece_index])
    else
      claimLoop rest st claimed

/-- One claim-batch step of `download_from_peer` (lines 223-231). -/
def claim_batch (pieces_available_from_peer : List Nat) (st : ResumeData) :
    ResumeData × List Nat :=
  claimLoop pieces_available_from_peer st []

/-- The successful-commit step of `download_from_peer` (lines 282-285):
set `verified_pieces[piece_index] = True`, increment `downloaded`,
discard the claim. -/
def commit_success (st : ResumeData) (piece_index : Nat) : ResumeData :=
  { st with
    verified_pieces := st.verified_pieces.set piece_index true
    downloaded := st.downloaded + 1
    claimed_pieces := st.claimed_pieces.erase piece_index }

/-- The hash-mismatch step of `download_from_peer` (lines 274-275):
`claimed_pieces.discard(piece_index)`, nothing else changes. -/
def discard_claim (st : ResumeData) (piece_index : Nat) : ResumeData :=
  { st with claimed_pieces := st.claimed_pieces.erase piece_index }

/-- The error-path release of `download_from_peer` (lines 291-293):
discard every index of the session's current batch. -/
def release_claims (st : ResumeData) (batch : List Nat) : ResumeData :=
  batch.foldl discard_claim st

/-- The verify-and-commit tail of the per-piece loop of
`download_from_peer` (lines 271-286), as a pure state transformer: on
hash match (`verify_piece_hash`) run `commit_success`, on mismatch run
`discard_claim`. -/
def process_piece (sha1 : List Nat → List Nat) (hash_of_pieces : List (List Nat))
    (st : ResumeData) (piece_index : Nat) (piece_data : List Nat) : ResumeData :=
  if verify_piece_hash sha1 piece_data (hash_of_pieces.getD piece_index []) then
    commit_success st piece_index
  else
    discard_claim st piece_index

/-- The fresh resume state built in `master.py` (lines 122-131):
`downloaded = 0`, `verified_pieces = [False] * num_of_pieces`, and (from
`ResumeData.__post_init__`) an empty claim set. -/
def freshLedger (info_hash : String) (piece_length num_of_pieces : Nat)
    (file_sizes : List Nat) (mtime : Nat) (last_active : String) : ResumeData where
  info_hash := info_hash
  piece_length := piece_length
  total_pieces := num_of_pieces
  downloaded := 0
  file_sizes := file_sizes
  mtime := mtime
  verified_pieces := List.replicate num_of_pieces false
  last_active := last_active
  claimed_pieces := ∅

/-- The ledger-mutating steps of `download_from_peer`: claiming a batch
(the claimed indices all drawn from an in-range availability list), a
successful commit of a claimed piece, a hash-mismatch discard, and the
error-path release of a batch. -/
inductive LedgerStep : ResumeData → ResumeData → Prop
  | claim (st : ResumeData) (available : List Nat)
      (hav : ∀ i ∈ available, i < st.verified_pieces.length) :
      LedgerStep st (claim_batch available st).1
  | commit (st : ResumeData) (piece_index : Nat)
      (hc : piece_index ∈ st.claimed_pieces) :
      LedgerStep st (commit_success st piece_index)
  | mismatch (st : ResumeData) (piece_index : Nat) :
      LedgerStep st (discard_claim st piece_index)
  | release (st : ResumeData) (batch : List Nat) :
      LedgerStep st (release_claims st batch)

/-- Ledger states reachable from a fresh all-False/zero state by
`LedgerStep`s. -/
inductive LedgerReachable : ResumeData → Prop
  | fresh (info_hash : String) (piece_length num_of_pieces : Nat)
      (file_sizes : List Nat) (mtime : Nat) (last_active : String) :
      LedgerReachable
        (freshLedger info_hash piece_length num_of_pieces file_sizes mtime last_active)
  | step {st st' : ResumeData} :
      LedgerReachable st → LedgerStep st st' → LedgerReachable st'

/-- The strengthened ledger invariant: every claimed index is in range
and unverified (hence `claimed ∩ verified = ∅`), and `downloaded` counts
the `true` entries of `verified_pieces`. -/
def LedgerInv (st : ResumeData) : Prop :=
  (∀ i ∈ st.claimed_pieces,
      i < st.verified_pieces.length ∧ st.verified_pieces.getD i false = false)
  ∧ st.downloaded = st.verified_pieces.count true

/-- Block layout of one piece in `download_from_peer` (lines 241-247):
`num_blocks = ceil(piece_length / BLOCK_SIZE)` and block `b` is requested
as `(begin, length) = (b * BLOCK_SIZE, min(BLOCK_SIZE, piece_length - begin))`.
The plan depends only on `piece_length`: the code uses the same layout
for every piece, the last one included. -/
def block_plan (piece_length : Nat) : List (Nat × Nat) :=
  (List.range ((piece_length + BLOCK_SIZE - 1) / BLOCK_SIZE)).map
    (fun block_num =>
      (block_num * BLOCK_SIZE, min BLOCK_SIZE (piece_length - block_num * BLOCK_SIZE)))

/-- Total number of bytes requested for one piece under `block_plan`. -/
def requested_bytes (piece_length : Nat) : Nat :=
  ((block_plan piece_length).map Prod.snd).sum

/-- Size of the piece buffer allocated in `download_from_peer` (line 243):
`bytearray(piece_length)`, for every piece index.  The whole buffer is
later passed to `verify_piece_hash` (line 272). -/
def piece_buffer_size (piece_length : Nat) : Nat :=
  piece_length

/-- Specification-side effective size of the last piece (spec §3):
`total_length - (num_pieces - 1) * piece_length`. -/
def last_piece_effective_size (total_length piece_length num_pieces : Nat) : Nat :=
  total_length - (num_pieces - 1) * piece_length

/-- `wait_for_unchoke` from `utils/download.py` (lines 93-113), over the
finite trace of messages the peer will deliver: return `True` at the
first unchoke; choke and irrelevant messages are logged and the loop
keeps waiting; an exhausted trace is the read timeout, which returns
`False`. -/
def wait_for_unchoke : List ParsedMessage → Bool
  | [] => false
  | msg :: rest => if is_unchoke msg then true else wait_for_unchoke rest

/-- Outcome of one `handle_worker` iteration for one peer. -/
inductive HandleAction where
  /-- `download_queue.put((peer, reader, writer, pieces_to_request))`. -/
  | enqueueDownload (pieces_to_request : List Nat)
  /-- Close the connection without enqueueing (failed unchoke wait). -/
  | closeNoUnchoke
  /-- `no_pieces_needed`: `continue` without enqueueing. -/
  | skipNoPieces
  /-- The `except` branch: log, close the connection. -/
  | errorClose
  /-- "Received unexpected message": neither have nor bitfield. -/
  | unexpectedMessage
deriving DecidableEq, Repr

/-- The post-handshake control exchange of `handle_worker` from
`utils/download.py` (lines 126-180), as a function of the first message
received and of the trace of messages available afterwards.  On the
`have` path the worker enqueues only after `wait_for_unchoke` succeeds on
the remaining trace (lines 147-154); on the `bitfield` path it sends
`interested` and enqueues immediately (lines 166-169), never consulting
the trace. -/
def handle_decision (first_message : ParsedMessage) (later_messages : List ParsedMessage)
    (verified_pieces : List Bool) : HandleAction :=
  if is_have first_message then
    match have_handler first_message verified_pieces with
    | .error _ => .errorClose
    | .ok pieces_to_request =>
      if pieces_to_request.length = 0 then .skipNoPieces
      else if wait_for_unchoke later_messages then .enqueueDownload pieces_to_request
      else .closeNoUnchoke
  else if is_bitfeild first_message then
    match bitfield_handler first_message verified_pieces with
    | .error _ => .errorClose
    | .ok pieces_to_request =>
      if pieces_to_request.length = 0 then .skipNoPieces
      else .enqueueDownload pieces_to_request
  else
    .unexpectedMessage

/-- JSON values, as produced by `json.dump` / consumed by `json.load`.
Every number persisted by `ResumeData.to_json` is a non-negative integer
(`piece_length`, counts, sizes, a Unix timestamp), so numbers are
modelled as naturals. -/
inductive Json where
  | str (s : String)
  | num (n : Nat)
  | bool (b : Bool)
  | arr (elems : List Json)
  | obj (fields : List (String × Json))

/-- `ResumeData.to_json` from `utils/json_data.py` (lines 31-40):
`asdict(self)` in field-declaration order, with `lock` and
`claimed_pieces` popped before dumping. -/
def ResumeData.to_json (r : ResumeData) : Json :=
  .obj
    [("info_hash", .str r.info_hash),
     ("piece_length", .num r.piece_length),
     ("total_pieces", .num r.total_pieces),
     ("downloaded", .num r.downloaded),
     ("file_sizes", .arr (r.file_sizes.map Json.num)),
     ("mtime", .num r.mtime),
     ("verified_pieces", .arr (r.verified_pieces.map Json.bool)),
     ("last_active", .str r.last_active)]

/-- Key lookup in a JSON object (`data[...]` on the loaded dict). -/
def jsonField : List (String × Json) → String → Option Json
  | [], _ => none
  | (k, v) :: rest, key => if k = key then some v else jsonField rest key

/-- Decode a JSON value as a string field. -/
def jsonAsStr : Json → Option String
  | .str s => some s
  | _ => none

/-- Decode a JSON value as a natural-number field. -/
def jsonAsNum : Json → Option Nat
  | .num n => some n
  | _ => none

/-- Decode a JSON array of numbers. -/
def jsonNumList : List Json → Option (List Nat)
  | [] => some []
  | .num n :: rest => (jsonNumList rest).map (n :: ·)
  | _ :: _ => none

/-- Decode a JSON array of booleans. -/
def jsonBoolList : List Json → Option (List Bool)
  | [] => some []
  | .bool b :: rest => (jsonBoolList rest).map (b :: ·)
  | _ :: _ => none

/-- `ResumeData.from_json` from `utils/json_data.py` (lines 42-53):
load the JSON object, build the record from its fields (`cls(**data)`),
and reset `claimed_pieces` to the empty set (the lock is likewise
reinitialized).  Missing or ill-typed fields fail the load. -/
def ResumeData.from_json (j : Json) : Option ResumeData :=
  match j with
  | .obj fields => do
    let ih ← jsonField fields "info_hash" >>= jsonAsStr
    let pl ← jsonField fields "piece_length" >>= jsonAsNum
    let tp ← jsonField fields "total_pieces" >>= jsonAsNum
    let dl ← jsonField fields "downloaded" >>= jsonAsNum
    let fsJson ← jsonField fields "file_sizes"
    let fs ← match fsJson with
      | .arr elems => jsonNumList elems
      | _ => none
    let mt ← jsonField fields "mtime" >>= jsonAsNum
    let vpJson ← jsonField fields "verified_pieces"
    let vp ← match vpJson with
      | .arr elems => jsonBoolList elems
      | _ => none
    let la ← jsonField fields "last_active" >>= jsonAsStr
    some
      { info_hash := ih, piece_length := pl, total_pieces := tp, downloaded := dl
        file_sizes := fs, mtime := mt, verified_pieces := vp, last_active := la
        claimed_pieces := ∅ }
  | _ => none

/-- The exceptions that can escape the tracker exchange in
`utils/get_peers.py`. -/
inductive TrackerExc where
  /-- `socket.gaierror`: DNS failure. -/
  | gaierror
  /-- `TimeoutError` raised once `count == MAX_TRY`. -/
  | timeoutExpired
  /-- `InvalidConnectionRespone` (lines 20-22). -/
  | invalidConnectionResponse
  /-- `InvalidAnnounceRespone` (lines 24-26). -/
  | invalidAnnounceResponse
  /-- `struct.error` from unpacking a reply of the wrong length. -/
  | structUnpackError
deriving DecidableEq, Repr

/-- What the per-tracker loop of `get_peers_list` does with an exception. -/
inductive TrackerAction where
  /-- `continue`: move on to the next tracker URL. -/
  | nextTracker
  /-- `sys.exit(1)`: terminate the process. -/
  | exitProcess
deriving DecidableEq, Repr

/-- Validation of a tracker connect reply, from `_make_connection_request`
in `utils/get_peers.py` (lines 81-97).  The request was sent with
`action = 0` and the given `transaction_id`.  A reply shorter than 16
bytes raises `InvalidConnectionRespone`; `struct.unpack(">LLQ", ...)`
requires exactly 16 bytes and raises `struct.error` otherwise; an action
or transaction-id mismatch raises `InvalidConnectionRespone`; otherwise
the 8-byte connection id is returned. -/
def connection_response_check (transaction_id : Nat) (connection_resp : List Nat) :
    Except TrackerExc Nat :=
  if connection_resp.length < 16 then
    .error .invalidConnectionResponse
  else if connection_resp.length ≠ 16 then
    .error .structUnpackError
  else
    let action_resp := beWord (connection_resp.take 4)
    let transaction_id_resp := beWord ((connection_resp.drop 4).take 4)
    let connection_id_resp := beWord (connection_resp.drop 8)
    if 0 ≠ action_resp then .error .invalidConnectionResponse
    else if transaction_id ≠ transaction_id_resp then .error .invalidConnectionResponse
    else .ok connection_id_resp

/-- The `except` ladder around Step 1 (connect) of `get_peers_list`
(`utils/get_peers.py` lines 272-285): `socket.gaierror`, `TimeoutError`
and `InvalidAnnounceRespone` each `continue` to the next tracker; every
other exception — `InvalidConnectionRespone` included, since it is not a
subclass of `InvalidAnnounceRespone` — falls to the generic handler,
which calls `sys.exit(1)`. -/
def connect_exception_dispatch : TrackerExc → TrackerAction
  | .gaierror => .nextTracker
  | .timeoutExpired => .nextTracker
  | .invalidAnnounceResponse => .nextTracker
  | .invalidConnectionResponse => .exitProcess
  | .structUnpackError => .exitProcess

/-- The `except` ladder around Step 2 (announce) of `get_peers_list`
(`utils/get_peers.py` lines 288-298): `TimeoutError` and
`InvalidAnnounceRespone` `continue`; everything else exits. -/
def announce_exception_dispatch : TrackerExc → TrackerAction
  | .timeoutExpired => .nextTracker
  | .invalidAnnounceResponse => .nextTracker
  | _ => .exitProcess

/-- Validation of a tracker announce reply, from `_make_announce_request`
in `utils/get_peers.py` (lines 183-202): shorter than 20 bytes, an
action mismatch or a transaction-id mismatch raise
`InvalidAnnounceRespone` (the request was sent with `action = 1`). -/
def announce_response_check (transaction_id : Nat) (announce_resp : List Nat) :
    Except TrackerExc Unit :=
  if announce_resp.length < 20 then
    .error .invalidAnnounceResponse
  else
    let action_resp := beWord (announce_resp.take 4)
    let transaction_id_resp := beWord ((announce_resp.drop 4).take 4)
    if 1 ≠ action_resp then .error .invalidAnnounceResponse
    else if transaction_id ≠ transaction_id_resp then .error .invalidAnnounceResponse
    else .ok ()

/-- The fields packed into the UDP announce request
(`struct.pack(">QLL20s20sQQQLLLlH", ...)`). -/
structure AnnounceRequest where
  connection_id : Nat
  action : Nat
  transaction_id : Nat
  info_hash : List Nat
  peer_id : List Nat
  downloaded : Nat
  left : Nat
  uploaded : Nat
  event : Nat
  ip : Nat
  key : Nat
  num_want : Int
  port : Nat
deriving DecidableEq, Repr

/-- The announce request built by `_make_announce_request` in
`utils/get_peers.py` (lines 131-147).  Every announce — `populate_peers`
in `master.py` re-runs `get_peers_list` on every tracker interval — goes
through this same construction: `downloaded = 0`, `left = total_length`,
`uploaded = 0`, `event = 2`, `ip = 0`, `num_want = -1`, `port = 6881`. -/
def make_announce_request (connection_id : Nat) (info_hash peer_id : List Nat)
    (total_length transaction_id key : Nat) : AnnounceRequest where
  connection_id := connection_id
  action := 1
  transaction_id := transaction_id
  info_hash := info_hash
  peer_id := peer_id
  downloaded := 0
  left := total_length
  uploaded := 0
  event := 2
  ip := 0
  key := key
  num_want := -1
  port := 6881

/-! ## Helper lemmas -/

theorem claimLoop_inv (available : List Nat) :
    ∀ (st : ResumeData) (acc : List Nat),
      (∀ i ∈ available, i < st.verified_pieces.length) → LedgerInv st →
      LedgerInv (claimLoop available st acc).1 := by
  induction available with
  | nil =>
    intro st acc _ hinv
    simpa [claimLoop] using hinv
  | cons i rest ih =>
    intro st acc hav hinv
    rw [claimLoop]
    by_cases hmax : MAX_CLAIM_PER_PEER ≤ acc.length
    · simpa [hmax] using hinv
    · rw [if_neg hmax]
      by_cases hcond : st.verified_pieces.getD i false = false ∧ i ∉ st.claimed_pieces
      · rw [if_pos hcond]
        refine ih _ _ (fun j hj => hav j (List.mem_cons_of_mem i hj)) ?_
        obtain ⟨hcl, hcount⟩ := hinv
        refine ⟨?_, hcount⟩
        intro j hj
        rcases Finset.mem_insert.mp hj with rfl | hjc
        · exact ⟨hav j (List.mem_cons_self j rest), hcond.1⟩
        · exact hcl j hjc
      · rw [if_neg hcond]
        exact ih _ _ (fun j hj => hav j (List.mem_cons_of_mem i hj)) hinv

theorem getD_of_mem_claimed {st : ResumeData} {i : Nat}
    (hinv : LedgerInv st) (hc : i ∈ st.claimed_pieces) :
    i < st.verified_pieces.length ∧ st.verified_pieces.getD i false = false :=
  hinv.1 i hc

theorem commit_inv (st : ResumeData) (piece_index : Nat)
    (hc : piece_index ∈ st.claimed_pieces) (hinv : LedgerInv st) :
    LedgerInv (commit_success st piece_index) := by
  obtain ⟨hcl, hcount⟩ := hinv
  obtain ⟨hlen, hfalse⟩ := hcl piece_index hc
  have hget : st.verified_pieces[piece_index] = false := by
    have h1 := List.getD_eq_getElem?_getD st.verified_pieces piece_index false
    rw [List.getElem?_eq_getElem hlen, Option.getD_some] at h1
    rw [← h1]
    exact hfalse
  constructor
  · intro j hj
    obtain ⟨hne, hjc⟩ := Finset.mem_erase.mp hj
    obtain ⟨hjlen, hjfalse⟩ := hcl j hjc
    refine ⟨by simpa [commit_success, List.length_set] using hjlen, ?_⟩
    have hne' : piece_index ≠ j := fun h => hne h.symm
    simp only [commit_success]
    rw [List.getD_eq_getElem?_getD, List.getElem?_set_ne hne',
      ← List.getD_eq_getElem?_getD]
    exact hjfalse
  · simp only [commit_success]
    rw [List.count_set true true st.verified_pieces piece_index hlen]
    simp [hget, hcount]

theorem discard_inv (st : ResumeData) (piece_index : Nat) (hinv : LedgerInv st) :
    LedgerInv (discard_claim st piece_index) := by
  obtain ⟨hcl, hcount⟩ := hinv
  exact ⟨fun j hj => hcl j (Finset.mem_of_mem_erase hj), hcount⟩

theorem release_inv (batch : List Nat) :
    ∀ st : ResumeData, LedgerInv st → LedgerInv (release_claims st batch) := by
  induction batch with
  | nil => intro st hinv; simpa [release_claims] using hinv
  | cons i rest ih =>
    intro st hinv
    have : release_claims st (i :: rest) = release_claims (discard_claim st i) rest := rfl
    rw [this]
    exact ih _ (discard_inv st i hinv)

theorem ledgerInv_of_reachable {st : ResumeData} (h : LedgerReachable st) : LedgerInv st := by
  induction h with
  | fresh info_hash piece_length num_of_pieces file_sizes mtime last_active =>
    constructor
    · intro i hi
      simp [freshLedger] at hi
    · simp [freshLedger, List.count_replicate]
  | step hreach hstep ih =>
    cases hstep with
    | claim available hav => exact claimLoop_inv available _ [] hav ih
    | commit piece_index hc => exact commit_inv _ piece_index hc ih
    | mismatch piece_index => exact discard_inv _ piece_index ih
    | release batch => exact release_inv batch _ ih

theorem wait_for_unchoke_exists {trace : List ParsedMessage}
    (h : wait_for_unchoke trace = true) : ∃ m ∈ trace, is_unchoke m = true := by
  induction trace with
  | nil => simp [wait_for_unchoke] at h
  | cons m rest ih =>
    rw [wait_for_unchoke] at h
    by_cases hm : is_unchoke m = true
    · exact ⟨m, List.mem_cons_self m rest, hm⟩
    · rw [if_neg hm] at h
      obtain ⟨x, hx, hxu⟩ := ih h
      exact ⟨x, List.mem_cons_of_mem m hx, hxu⟩

theorem jsonNumList_map (l : List Nat) : jsonNumList (l.map Json.num) = some l := by
  induction l with
  | nil => rfl
  | cons n rest ih => simp [jsonNumList, ih]

theorem jsonBoolList_map (l : List Bool) : jsonBoolList (l.map Json.bool) = some l := by
  induction l with
  | nil => rfl
  | cons b rest ih => simp [jsonBoolList, ih]

theorem from_json_to_json (r : ResumeData) :
    ResumeData.from_json (ResumeData.to_json r) = some { r with claimed_pieces := ∅ } := by
  simp [ResumeData.to_json, ResumeData.from_json, jsonField, jsonAsStr, jsonAsNum,
    jsonNumList_map, jsonBoolList_map]

theorem is_handshake_iff (packet info_hash : List Nat) :
    is_handshake packet info_hash = true ↔
      (packet.length = 68 ∧ packet.getD 0 0 = 19
        ∧ (packet.drop 1).take 19 = protocol_string_bytes
        ∧ (packet.drop 28).take 20 = info_hash) := by
  unfold is_handshake
  by_cases h68 : packet.length = 68
  · rw [if_neg (by simpa using h68)]
    by_cases hcond : packet.getD 0 0 ≠ 19 ∨ (packet.drop 1).take 19 ≠ protocol_string_bytes
        ∨ (packet.drop 28).take 20 ≠ info_hash
    · rw [if_pos hcond]
      constructor
      · intro hfalse
        exact absurd hfalse (by decide)
      · rintro ⟨-, h19, hproto, hhash⟩
        exact (hcond.elim (fun hc => hc h19)
          (fun h2 => h2.elim (fun hc => hc hproto) (fun hc => hc hhash))).elim
    · rw [if_neg hcond]
      push_neg at hcond
      exact ⟨fun _ => ⟨h68, hcond.1, hcond.2.1, hcond.2.2⟩, fun _ => rfl⟩
  · rw [if_pos h68]
    constructor
    · intro hfalse
      exact absurd hfalse (by decide)
    · rintro ⟨h, -⟩
      exact (h68 h).elim

/-! ## Claim theorems -/

/-- **C1**: every ledger state reachable from the fresh all-False/zero
state by the ledger-mutating steps of `download_from_peer` — claiming a
batch, a successful commit, a hash-mismatch discard, and the error-path
release — satisfies the ledger invariant: every claimed piece index is
unverified (so `claimed ∩ verified = ∅`), and the `downloaded` counter
equals the number of `True` entries of `verified_pieces`. -/
theorem C1_ledger_invariant (st : ResumeData) (h : LedgerReachable st) :
    (∀ i ∈ st.claimed_pieces, st.verified_pieces.getD i false = false)
    ∧ st.downloaded = st.verified_pieces.count true :=
  ⟨fun i hi => ((ledgerInv_of_reachable h).1 i hi).2, (ledgerInv_of_reachable h).2⟩

/-- Witness for C1: from a fresh 3-piece ledger, claim the batch `[0, 1]`
and commit piece 0; the resulting state satisfies the invariant. -/
theorem C1_ledger_invariant_witness :
    (∀ i ∈ (commit_success (claim_batch [0, 1] (freshLedger "" 16384 3 [40000] 0 "")).1
        0).claimed_pieces,
      (commit_success (claim_batch [0, 1] (freshLedger "" 16384 3 [40000] 0 "")).1
        0).verified_pieces.getD i false = false)
    ∧ (commit_success (claim_batch [0, 1] (freshLedger "" 16384 3 [40000] 0 "")).1
        0).downloaded
      = (commit_success (claim_batch [0, 1] (freshLedger "" 16384 3 [40000] 0 "")).1
        0).verified_pieces.count true :=
  C1_ledger_invariant _
    (.step (.step (.fresh "" 16384 3 [40000] 0 "") (.claim _ [0, 1] (by decide)))
      (.commit _ 0 (by decide)))

/-- **C2**: in the verify-and-commit tail of `download_from_peer`,
`verified_pieces[i]` becomes `True` only if the digest of the committed
bytes equals `hash_of_pieces[i]`; on a mismatch the piece is removed from
the claimed set while `verified_pieces` and `downloaded` are untouched,
leaving the index claimable later. -/
theorem C2_integrity_gate (sha1 : List Nat → List Nat) (hash_of_pieces : List (List Nat))
    (st : ResumeData) (piece_index : Nat) (piece_data : List Nat)
    (hunv : st.verified_pieces.getD piece_index false = false) :
    ((process_piece sha1 hash_of_pieces st piece_index piece_data).verified_pieces.getD
        piece_index false = true →
      sha1 piece_data = hash_of_pieces.getD piece_index [])
    ∧ (sha1 piece_data ≠ hash_of_pieces.getD piece_index [] →
      (process_piece sha1 hash_of_pieces st piece_index piece_data).verified_pieces
          = st.verified_pieces
        ∧ (process_piece sha1 hash_of_pieces st piece_index piece_data).downloaded
          = st.downloaded
        ∧ (process_piece sha1 hash_of_pieces st piece_index piece_data).claimed_pieces
          = st.claimed_pieces.erase piece_index) := by
  by_cases hmatch : sha1 piece_data = hash_of_pieces.getD piece_index []
  · exact ⟨fun _ => hmatch, fun hne => absurd hmatch hne⟩
  · have hproc : process_piece sha1 hash_of_pieces st piece_index piece_data
        = discard_claim st piece_index := by
      rw [process_piece, if_neg]
      simp only [verify_piece_hash, decide_eq_true_eq]
      exact hmatch
    constructor
    · intro hset
      rw [hproc] at hset
      have hv : (discard_claim st piece_index).verified_pieces = st.verified_pieces := rfl
      rw [hv, hunv] at hset
      exact absurd hset (by decide)
    · intro _
      rw [hproc]
      exact ⟨rfl, rfl, rfl⟩

/-- Witness for C2: a concrete mismatch (digest `[1]`, expected `[0]`)
discards the claim on piece 0 and changes nothing else. -/
theorem C2_integrity_gate_witness :
    (process_piece (fun _ => [1]) [[0]]
        ⟨"", 1, 1, 0, [1], 0, [false], "", {0}⟩ 0 []).verified_pieces = [false]
    ∧ (process_piece (fun _ => [1]) [[0]]
        ⟨"", 1, 1, 0, [1], 0, [false], "", {0}⟩ 0 []).downloaded = 0
    ∧ (process_piece (fun _ => [1]) [[0]]
        ⟨"", 1, 1, 0, [1], 0, [false], "", {0}⟩ 0 []).claimed_pieces
      = ({0} : Finset Nat).erase 0 :=
  (C2_integrity_gate (fun _ => [1]) [[0]] ⟨"", 1, 1, 0, [1], 0, [false], "", {0}⟩ 0 []
    (by decide)).2 (by decide)

/-- **C3** (code bug): `bitfield_handler` drops the whole final partial
byte.  With one piece (`verified_pieces = [False]`) and payload byte
`0x80` — bit 0 set, i.e. the peer has piece 0 — the handler returns `[]`,
while the claimed semantics (`needed = peer_has \ verified`, bit `i` read
as `(byte[i/8] >> (7 - i%8)) & 1`) yields `[0]`: the inner loop starts at
`piece_index = byte_index*8 + 7`, which is `≥ total_pieces`, and the
`break` skips every bit of the partial byte. -/
theorem C3_bitfield_partial_byte_dropped :
    bitfield_handler ⟨some 2, some 5, some [128]⟩ [false] = .ok []
    ∧ spec_bitfield_bit [128] 0 = 1
    ∧ spec_needed_pieces [128] [false] = [0] :=
  ⟨rfl, by decide, by decide⟩

/-- **C4**: `is_handshake packet h` holds iff the packet is exactly 68
bytes, byte 0 is 19, bytes 1..20 are `"BitTorrent protocol"`, and bytes
28..48 equal `h`; moreover two 68-byte packets agreeing on those regions
— hence differing at most in the 8 reserved bytes and the 20-byte peer
id — are classified identically. -/
theorem C4_is_handshake_characterization (h : List Nat) (hlen : h.length = 20) :
    (∀ packet : List Nat,
      is_handshake packet h = true ↔
        packet.length = 68 ∧ packet.getD 0 0 = 19
          ∧ (packet.drop 1).take 19 = protocol_string_bytes
          ∧ (packet.drop 28).take 20 = h)
    ∧ (∀ p q : List Nat, p.length = 68 → q.length = 68 →
        p.getD 0 0 = q.getD 0 0 → (p.drop 1).take 19 = (q.drop 1).take 19 →
        (p.drop 28).take 20 = (q.drop 28).take 20 →
        is_handshake p h = is_handshake q h) := by
  refine ⟨fun packet => is_handshake_iff packet h, ?_⟩
  intro p q hp hq h0 h1 h28
  by_cases hqv : is_handshake q h = true
  · obtain ⟨-, h19, hproto, hhash⟩ := (is_handshake_iff q h).mp hqv
    rw [hqv]
    exact (is_handshake_iff p h).mpr
      ⟨hp, h0.trans h19, h1.trans hproto, h28.trans hhash⟩
  · have hpv : ¬ is_handshake p h = true := by
      intro hpt
      obtain ⟨-, h19, hproto, hhash⟩ := (is_handshake_iff p h).mp hpt
      exact hqv ((is_handshake_iff q h).mpr
        ⟨hq, h0.symm.trans h19, h1.symm.trans hproto, h28.symm.trans hhash⟩)
    rw [Bool.not_eq_true] at hqv hpv
    rw [hqv, hpv]

/-- Witness for C4: a concrete valid handshake packet against the
expected hash `[7, 7, ..., 7]` is accepted. -/
theorem C4_is_handshake_witness :
    is_handshake
        (19 :: protocol_string_bytes ++ List.replicate 8 0
          ++ List.replicate 20 7 ++ List.replicate 20 9)
        (List.replicate 20 7) = true :=
  ((C4_is_handshake_characterization (List.replicate 20 7) (by decide)).1 _).mpr (by decide)

/-- **C5** (code bug): `download_from_peer` lays out the blocks of every
piece from `piece_length` alone and allocates the hash buffer as
`bytearray(piece_length)`, so for the last piece of a torrent with
`piece_length = 16384` and `total_length = 40000` (3 pieces) it requests
16384 bytes and hashes a 16384-byte buffer, not the effective
`40000 - 2 * 16384 = 7232` bytes the claim requires. -/
theorem C5_last_piece_not_truncated :
    requested_bytes 16384 = 16384
    ∧ piece_buffer_size 16384 = 16384
    ∧ last_piece_effective_size 40000 16384 3 = 7232
    ∧ requested_bytes 16384 ≠ last_piece_effective_size 40000 16384 3 := by
  refine ⟨?_, rfl, by decide, ?_⟩ <;> decide

/-- **C6** counterexample: on the bitfield path `handle_worker` enqueues
to the download stage with no unchoke received at all.  With first
message a bitfield (`id = 5`) with payload byte `0xFF` over 8 unverified
pieces, and an empty subsequent trace (so no unchoke ever arrives), the
decision is still `enqueueDownload`. -/
theorem C6_bitfield_enqueues_without_unchoke :
    handle_decision ⟨some 2, some 5, some [255]⟩ []
        [false, false, false, false, false, false, false, false]
      = .enqueueDownload [7, 6, 5, 4, 3, 2, 1, 0]
    ∧ wait_for_unchoke ([] : List ParsedMessage) = false := by
  exact ⟨by decide, rfl⟩

/-- **C6** amended: the wait-for-unchoke step guards the download enqueue
only on the `have` path — there an enqueue implies an unchoke was
received in the subsequent trace — while on the `bitfield` path the
decision ignores the subsequent trace entirely and enqueues directly
after sending `interested`. -/
theorem C6_unchoke_wait_only_on_have_path (first_message : ParsedMessage)
    (later_messages : List ParsedMessage) (verified_pieces : List Bool) :
    (∀ pieces, is_have first_message = true →
      handle_decision first_message later_messages verified_pieces
          = .enqueueDownload pieces →
      ∃ m ∈ later_messages, is_unchoke m = true)
    ∧ (is_bitfeild first_message = true →
      handle_decision first_message later_messages verified_pieces
        = handle_decision first_message [] verified_pieces) := by
  constructor
  · intro pieces hhave hdec
    by_cases hw : wait_for_unchoke later_messages = true
    · exact wait_for_unchoke_exists hw
    · exfalso
      rw [Bool.not_eq_true] at hw
      rw [handle_decision, if_pos hhave] at hdec
      cases hhandler : have_handler first_message verified_pieces with
      | error e =>
        rw [hhandler] at hdec
        simp at hdec
      | ok ps =>
        rw [hhandler] at hdec
        by_cases hlen0 : ps.length = 0
        · simp [hlen0] at hdec
        · simp [hlen0, hw] at hdec
  · intro hbf
    have hid : first_message.id = some 5 := by
      simpa [is_bitfeild] using hbf
    have hhave : is_have first_message = false := by
      simp [is_have, hid]
    simp [handle_decision, hhave, hbf]

/-- Witness for the amended C6: a `have` message for piece 1 out of two
unverified pieces, followed by an unchoke, is enqueued — and indeed an
unchoke occurs in the trace. -/
theorem C6_unchoke_wait_only_on_have_path_witness :
    ∃ m ∈ [ParsedMessage.mk (some 1) (some 1) none], is_unchoke m = true :=
  (C6_unchoke_wait_only_on_have_path ⟨some 5, some 4, some [0, 0, 0, 1]⟩
      [⟨some 1, some 1, none⟩] [false, false]).1
    [1] (by decide) (by decide)

/-- **C7**: persisting a `ResumeData` with `to_json` and loading the
result with `from_json` succeeds and yields a record with element-wise
identical `verified_pieces`, equal `downloaded`, and an empty
`claimed_pieces` set — whatever was claimed at persist time. -/
theorem C7_resume_round_trip (r : ResumeData) :
    ∃ r' : ResumeData, ResumeData.from_json (ResumeData.to_json r) = some r'
      ∧ r'.verified_pieces = r.verified_pieces
      ∧ r'.downloaded = r.downloaded
      ∧ r'.claimed_pieces = ∅ :=
  ⟨{ r with claimed_pieces := ∅ }, from_json_to_json r, rfl, rfl, rfl⟩

/-- **C8** (code bug): a malformed connect reply does NOT move
`get_peers_list` to the next tracker.  A 16-byte all-zero reply to a
connect request sent with `transaction_id = 1` fails the transaction-id
check and raises `InvalidConnectionRespone`; the connect-phase `except`
ladder only `continue`s on `socket.gaierror`, `TimeoutError` and
`InvalidAnnounceRespone` (a class the connect step can never raise), so
the exception falls to the generic handler, which calls `sys.exit(1)` —
while timeouts and DNS failures do move to the next tracker, and
announce-phase invalid replies are recovered. -/
theorem C8_connect_invalid_reply_exits :
    connection_response_check 1 (List.replicate 16 0)
        = .error .invalidConnectionResponse
    ∧ connect_exception_dispatch .invalidConnectionResponse = .exitProcess
    ∧ connect_exception_dispatch .structUnpackError = .exitProcess
    ∧ connect_exception_dispatch .timeoutExpired = .nextTracker
    ∧ connect_exception_dispatch .gaierror = .nextTracker
    ∧ announce_exception_dispatch .invalidAnnounceResponse = .nextTracker
    ∧ announce_response_check 1 (List.replicate 20 0)
        = .error .invalidAnnounceResponse :=
  ⟨rfl, rfl, rfl, rfl, rfl, rfl, rfl⟩

/-- **C9** counterexample: the announce request the client builds — the
same construction on every tracker cycle, `populate_peers` re-announcing
each interval included — always carries `event = 2` (started); in
particular a subsequent periodic re-announce does not carry 0 and a
completion announce with 1 is never built. -/
theorem C9_event_never_none_or_completed :
    (make_announce_request 7 (List.replicate 20 1) (List.replicate 20 2) 40000 3 4).event = 2
    ∧ (make_announce_request 7 (List.replicate 20 1) (List.replicate 20 2) 40000 3 4).event ≠ 0
    ∧ (make_announce_request 7 (List.replicate 20 1) (List.replicate 20 2) 40000 3 4).event ≠ 1 :=
  ⟨rfl, by decide, by decide⟩

/-- **C9** amended: the `event` field of every UDP announce request is 2
(started), whatever the connection id, hashes, length, transaction id or
key — the code never sends 0 (none) or 1 (completed). -/
theorem C9_event_always_started (connection_id : Nat) (info_hash peer_id : List Nat)
    (total_length transaction_id key : Nat) :
    (make_announce_request connection_id info_hash peer_id total_length
        transaction_id key).event = 2 :=
  rfl

/-- **C10**: `parse_message` is total, and: `size` is the big-endian u32
of the first 4 bytes when at least 4 are present and `None` otherwise,
`id` is the signed byte `packet[4]` when at least 5 are present and
`None` otherwise, `payload` is `packet[5:]` when at least 6 are present
and `None` otherwise; hence a 4-byte keep-alive frame parses with
`id = None` and a 5-byte choke/unchoke frame with `payload = None`. -/
theorem C10_parse_message_total (packet : List Nat) :
    ((parse_message packet).size
        = if 4 ≤ packet.length then some (beWord (packet.take 4)) else none)
    ∧ ((parse_message packet).id
        = if 5 ≤ packet.length then some (signedByte (packet.getD 4 0)) else none)
    ∧ ((parse_message packet).payload
        = if 6 ≤ packet.length then some (packet.drop 5) else none)
    ∧ (packet.length = 4 →
        (parse_message packet).id = none
        ∧ (parse_message packet).size = some (beWord packet))
    ∧ (packet.length = 5 →
        (parse_message packet).payload = none
        ∧ (parse_message packet).id = some (signedByte (packet.getD 4 0))) := by
  refine ⟨?_, ?_, ?_, ?_, ?_⟩
  · show (if packet.length < 4 then none else some (beWord (packet.take 4)))
        = if 4 ≤ packet.length then some (beWord (packet.take 4)) else none
    by_cases h : packet.length < 4
    · rw [if_pos h, if_neg (by omega)]
    · rw [if_neg h, if_pos (by omega)]
  · show (if packet.length < 5 then none else some (signedByte (packet.getD 4 0)))
        = if 5 ≤ packet.length then some (signedByte (packet.getD 4 0)) else none
    by_cases h : packet.length < 5
    · rw [if_pos h, if_neg (by omega)]
    · rw [if_neg h, if_pos (by omega)]
  · show (if packet.length < 6 then none else some (packet.drop 5))
        = if 6 ≤ packet.length then some (packet.drop 5) else none
    by_cases h : packet.length < 6
    · rw [if_pos h, if_neg (by omega)]
    · rw [if_neg h, if_pos (by omega)]
  · intro h4
    constructor
    · show (if packet.length < 5 then none else some (signedByte (packet.getD 4 0))) = none
      rw [if_pos (by omega)]
    · show (if packet.length < 4 then none else some (beWord (packet.take 4)))
          = some (beWord packet)
      rw [if_neg (by omega), List.take_of_length_le (by omega)]
  · intro h5
    constructor
    · show (if packet.length < 6 then none else some (packet.drop 5)) = none
      rw [if_pos (by omega)]
    · show (if packet.length < 5 then none else some (signedByte (packet.getD 4 0)))
          = some (signedByte (packet.getD 4 0))
      rw [if_neg (by omega)]

/-- Witness for C10: the 4-byte keep-alive frame `[0, 0, 0, 0]` parses
with `size = 0` and `id = None`. -/
theorem C10_parse_message_total_witness :
    (parse_message [0, 0, 0, 0]).id = none
    ∧ (parse_message [0, 0, 0, 0]).size = some (beWord [0, 0, 0, 0]) :=
  (C10_parse_message_total [0, 0, 0, 0]).2.2.2.1 rfl

end TorrentClient
